import Mathlib

/-! Shallow embedding of `app/main.py` (CleanSeam API): the static brand and
category tables and the scoring pipeline behind the HTTP endpoints, together
with theorems checking the natural-language specification against them.
Python floats on the one-decimal table values are modelled exactly by `ℚ`;
Python `int(x)` is truncation toward zero and `round(x, n)` is rounding of
`x * 10 ^ n` to an integer. -/

/-- ASCII lowercasing of one character, the fragment of Python `str.lower`
relevant to the tables (all keys are ASCII). -/
def charLower (c : Char) : Char :=
  if c.toNat ≥ 65 && c.toNat ≤ 90 then Char.ofNat (c.toNat + 32) else c

/-- Python `str.lower` on a string (ASCII fragment). -/
def strLower (s : String) : String := String.mk (s.data.map charLower)

/-- ASCII whitespace, as stripped by Python `str.strip`. -/
def isSpaceChar (c : Char) : Bool := c == ' ' || c == '\t' || c == '\n' || c == '\r'

/-- Python `str.strip`: drop leading and trailing whitespace. -/
def strTrim (s : String) : String :=
  String.mk (((s.data.dropWhile isSpaceChar).reverse.dropWhile isSpaceChar).reverse)

/-- Boolean test that the list `p` is a prefix of the second list. -/
def isPrefixL : List Char → List Char → Bool
  | [], _ => true
  | _ :: _, [] => false
  | a :: as, b :: bs => a == b && isPrefixL as bs

/-- Boolean test that `p` occurs as a contiguous sublist of the second list. -/
def isInfixL (p : List Char) : List Char → Bool
  | [] => p.isEmpty
  | c :: tl => isPrefixL p (c :: tl) || isInfixL p tl

/-- Python substring containment `pat in s`. -/
def strContains (s pat : String) : Bool := isInfixL pat.data s.data

/-- Python `int(x)` on a float/rational: truncation toward zero. -/
def pyInt (q : ℚ) : ℤ := if q < 0 then -(⌊-q⌋) else ⌊q⌋

/-- Python `round(x, prec)`: round `x * 10 ^ prec` to an integer and scale
back.  (At exact half-way points CPython rounds half to even; no value in
this development sits at a half-way point, so nearest-integer rounding is an
exact model on everything proved here.) -/
def roundTo (prec : ℕ) (q : ℚ) : ℚ := ((round (q * 10 ^ prec) : ℤ) : ℚ) / 10 ^ prec

/-- Python truthiness test `not x` for an optional string: `None` and the
empty string are falsy. -/
def falsyOpt (o : Option String) : Bool :=
  match o with
  | none => true
  | some s => s == ""

/-- Python `x or d` for an optional string `x`: the default replaces both
`None` and the empty string. -/
def pyOrStr (o : Option String) (d : String) : String :=
  match o with
  | none => d
  | some s => if s == "" then d else s

/-- One record of `BRAND_DATA` in `app/main.py`. -/
structure BrandData where
  name : String
  tier : String
  overall_score : ℚ
  description : String
  category_scores : List (String × ℚ)
  avg_lifespan_months : ℕ
deriving DecidableEq

/-- The hardcoded `BRAND_DATA` table (insertion order preserved). -/
def BRAND_DATA : List (String × BrandData) := [
  ("zara",
   { name := "Zara", tier := "fast_fashion", overall_score := 3.5,
     description := "Fast fashion with trendy designs, variable quality",
     category_scores := [("jeans", 3.2), ("t-shirt", 2.8), ("dress", 3.5), ("jacket", 4.0)],
     avg_lifespan_months := 12 }),
  ("h&m",
   { name := "H&M", tier := "fast_fashion", overall_score := 3.0,
     description := "Budget fast fashion, lower durability",
     category_scores := [("jeans", 2.8), ("t-shirt", 2.5), ("dress", 3.0), ("jacket", 3.5)],
     avg_lifespan_months := 10 }),
  ("uniqlo",
   { name := "Uniqlo", tier := "mid_range", overall_score := 5.8,
     description := "Quality basics, good value for price",
     category_scores := [("jeans", 5.5), ("t-shirt", 6.0), ("jacket", 6.5), ("pants", 5.8)],
     avg_lifespan_months := 24 }),
  ("patagonia",
   { name := "Patagonia", tier := "premium", overall_score := 8.2,
     description := "Durable outdoor wear, excellent longevity",
     category_scores := [("jacket", 9.0), ("t-shirt", 7.5), ("pants", 8.0), ("sweater", 8.5)],
     avg_lifespan_months := 60 }),
  ("shein",
   { name := "Shein", tier := "fast_fashion", overall_score := 1.5,
     description := "Ultra-fast fashion, minimal durability",
     category_scores := [("jeans", 1.2), ("t-shirt", 1.0), ("dress", 1.8), ("jacket", 2.0)],
     avg_lifespan_months := 6 }),
  ("levis",
   { name := "Levi\x27s", tier := "mid_range", overall_score := 6.5,
     description := "Classic denim brand, good durability",
     category_scores := [("jeans", 7.5), ("jacket", 7.0), ("t-shirt", 5.0), ("shorts", 6.5)],
     avg_lifespan_months := 36 }),
  ("gap",
   { name := "Gap", tier := "mid_range", overall_score := 4.5,
     description := "Mid-range basics, inconsistent quality",
     category_scores := [("jeans", 4.5), ("t-shirt", 4.0), ("sweater", 5.0), ("jacket", 5.0)],
     avg_lifespan_months := 18 }),
  ("cos",
   { name := "COS", tier := "mid_range", overall_score := 6.0,
     description := "H&M premium line, better construction",
     category_scores := [("dress", 6.5), ("pants", 6.0), ("jacket", 6.5), ("t-shirt", 5.5)],
     avg_lifespan_months := 24 })]

/-- One record of `CATEGORY_AVERAGES` in `app/main.py`. -/
structure CategoryData where
  avg_score : ℚ
  avg_lifespan : ℕ
  avg_wears : ℕ
deriving DecidableEq

/-- The hardcoded `CATEGORY_AVERAGES` table. -/
def CATEGORY_AVERAGES : List (String × CategoryData) := [
  ("jeans", { avg_score := 5.2, avg_lifespan := 24, avg_wears := 100 }),
  ("t-shirt", { avg_score := 4.5, avg_lifespan := 18, avg_wears := 60 }),
  ("jacket", { avg_score := 5.8, avg_lifespan := 36, avg_wears := 120 }),
  ("dress", { avg_score := 4.8, avg_lifespan := 20, avg_wears := 40 }),
  ("pants", { avg_score := 5.0, avg_lifespan := 24, avg_wears := 80 }),
  ("sweater", { avg_score := 5.5, avg_lifespan := 30, avg_wears := 70 }),
  ("shirt", { avg_score := 5.0, avg_lifespan := 24, avg_wears := 60 }),
  ("shorts", { avg_score := 4.5, avg_lifespan := 24, avg_wears := 50 }),
  ("coat", { avg_score := 6.0, avg_lifespan := 48, avg_wears := 150 })]

/-- `calculate_material_score` from `app/main.py`: material-composition
heuristic, neutral 5.0 on missing or empty input. -/
def calculate_material_score (composition : Option String) : ℚ :=
  match composition with
  | none => 5.0
  | some c =>
    if c = "" then 5.0
    else
      let comp_lower := strLower c
      let score : ℚ := 5.0
      let score :=
        if strContains comp_lower "100% cotton" || strContains comp_lower "100% wool" ||
            strContains comp_lower "100% linen" then score + 3.0
        else if strContains comp_lower "cotton" then score + 1.5
        else if strContains comp_lower "wool" || strContains comp_lower "linen" then score + 2.0
        else score
      let score := if strContains comp_lower "polyester" then score - 1.5 else score
      let score := if strContains comp_lower "acrylic" then score - 2.0 else score
      let score :=
        if strContains comp_lower "viscose" || strContains comp_lower "rayon" then score - 0.5
        else score
      max 1.0 (min 10.0 score)

/-- `get_brand_score` from `app/main.py`: `(score, brand_data)` for a brand
name (lowercased and stripped) and a category. -/
def get_brand_score (brand category : String) : ℚ × Option BrandData :=
  let brand_key := strTrim (strLower brand)
  match BRAND_DATA.lookup brand_key with
  | none => (5.0, none)
  | some brand_data =>
    ((brand_data.category_scores.lookup category).getD brand_data.overall_score, some brand_data)

/-- `calculate_predicted_wears` from `app/main.py`. -/
def calculate_predicted_wears (quality_score : ℚ) (category : String) : ℤ :=
  let base_wears : ℕ :=
    match CATEGORY_AVERAGES.lookup category with
    | some category_data => category_data.avg_wears
    | none => 60
  let multiplier := quality_score / 5.0
  pyInt (base_wears * multiplier)

/-- `calculate_lifespan` from `app/main.py`. -/
def calculate_lifespan (quality_score : ℚ) (category : String) : ℤ :=
  let base_lifespan : ℕ :=
    match CATEGORY_AVERAGES.lookup category with
    | some category_data => category_data.avg_lifespan
    | none => 18
  let multiplier := quality_score / 5.0
  pyInt (base_lifespan * multiplier)

/-- `generate_verdict` from `app/main.py`: three-clause templated sentence. -/
def generate_verdict (quality_score cost_per_wear category_avg : ℚ) : String :=
  let quality_desc :=
    if quality_score ≥ 7.5 then "Excellent quality"
    else if quality_score ≥ 5.5 then "Good quality"
    else if quality_score ≥ 4.0 then "Average quality"
    else if quality_score ≥ 2.5 then "Below average quality"
    else "Poor quality"
  let comparison :=
    if quality_score < category_avg - 1 then "Below average for this category."
    else if quality_score > category_avg + 1 then "Above average for this category."
    else "Average for this category."
  let value_note :=
    if cost_per_wear < 1.0 then "Good value per wear."
    else if cost_per_wear < 2.0 then "Reasonable value."
    else "Consider if you\x27ll wear it enough to justify the cost."
  quality_desc ++ ". " ++ comparison ++ " " ++ value_note

/-- `get_price_range` from `app/main.py`: tier to typical price range. -/
def get_price_range (tier : String) : String :=
  (([("fast_fashion", "$10-50"), ("budget", "$15-40"), ("mid_range", "$40-100"),
    ("premium", "$80-250"), ("luxury", "$200+")] : List (String × String)).lookup tier).getD
    "$30-80"

/-- One entry of the `better_alternatives` list built by `find_alternatives`. -/
structure AltEntry where
  brand : String
  score : ℚ
  typical_price_range : String
deriving DecidableEq

/-- `find_alternatives` from `app/main.py`: brands (other than the queried
key) whose category score beats `current_score + 0.5`, sorted by score
descending (Python's stable sort with `reverse=True`), first three kept. -/
def find_alternatives (brand category : String) (price current_score : ℚ) : List AltEntry :=
  let alternatives := BRAND_DATA.filterMap (fun p =>
    if p.1 = strLower brand then none
    else
      let cat_score := (p.2.category_scores.lookup category).getD p.2.overall_score
      if cat_score > current_score + 0.5 then
        some { brand := p.2.name, score := cat_score, typical_price_range := get_price_range p.2.tier }
      else none)
  (alternatives.insertionSort (fun a b => b.score ≤ a.score)).take 3

/-- Request body of `POST /analyze`. -/
structure AnalyzeRequest where
  brand : Option String
  item_type : Option String
  price : ℚ
  currency : String
  material_composition : Option String
  url : Option String
deriving DecidableEq

/-- Response body of `POST /analyze` (the `factors` dict is flattened into
its two keys). -/
structure AnalyzeResponse where
  quality_score : ℚ
  predicted_wears : ℤ
  predicted_lifespan_months : ℤ
  cost_per_wear : ℚ
  verdict : String
  factors_brand_score : ℚ
  factors_material_score : ℚ
  brand_average : Option ℚ
  category_average : Option ℚ
  better_alternatives : List AltEntry
  waitlist_url : String
deriving DecidableEq

/-- The weighted quality aggregation written on line 288 of `app/main.py`:
`brand_score * 0.5 + material_score * 0.3 + brand_score * 0.2`. -/
def quality_weighted (brand_score material_score : ℚ) : ℚ :=
  brand_score * 0.5 + material_score * 0.3 + brand_score * 0.2

/-- `analyze_item`, the handler of `POST /analyze`: an `HTTPException` is an
`Except.error` carrying its detail message. -/
def analyze_item (request : AnalyzeRequest) : Except String AnalyzeResponse :=
  if falsyOpt request.brand && falsyOpt request.url then
    .error "Brand or URL is required"
  else if falsyOpt request.item_type && falsyOpt request.url then
    .error "Item type is required when not providing URL"
  else
    let brand := pyOrStr request.brand "Unknown"
    let item_type := strLower (pyOrStr request.item_type "t-shirt")
    let bs := get_brand_score brand item_type
    let brand_score := bs.1
    let brand_data := bs.2
    let material_score := calculate_material_score request.material_composition
    let quality_score := roundTo 1 (min 10.0 (max 1.0 (quality_weighted brand_score material_score)))
    let predicted_wears := calculate_predicted_wears quality_score item_type
    let predicted_lifespan := calculate_lifespan quality_score item_type
    let cost_per_wear := roundTo 2 (request.price / (predicted_wears : ℚ))
    let category_avg :=
      match CATEGORY_AVERAGES.lookup item_type with
      | some category_data => category_data.avg_score
      | none => 5.0
    let verdict := generate_verdict quality_score cost_per_wear category_avg
    let alternatives := find_alternatives brand item_type request.price quality_score
    .ok {
      quality_score := quality_score
      predicted_wears := predicted_wears
      predicted_lifespan_months := predicted_lifespan
      cost_per_wear := cost_per_wear
      verdict := verdict
      factors_brand_score := brand_score
      factors_material_score := material_score
      brand_average := brand_data.map (fun bd => bd.overall_score)
      category_average := some category_avg
      better_alternatives := alternatives
      waitlist_url := "https://cleanseam.ai/join" }

/-- One row of the `results` list built by `compare_brands`. -/
structure CompareEntry where
  name : String
  score : ℚ
  typical_price : String
  predicted_wears : ℤ
deriving DecidableEq

/-- Result body of `GET /compare`. -/
structure CompareResult where
  category : String
  brands : List CompareEntry
  recommendation : String
deriving DecidableEq

/-- The row `compare_brands` computes for one brand name. -/
def compareEntryFor (category brand_name : String) : CompareEntry :=
  let r := get_brand_score brand_name category
  { name := match r.2 with | some bd => bd.name | none => brand_name
    score := r.1
    typical_price := match r.2 with | some bd => get_price_range bd.tier | none => "Unknown"
    predicted_wears := calculate_predicted_wears r.1 category }

/-- Placeholder entry used for the (unreachable, since the list is checked
nonempty) default of head/last extraction in `compare_brands`. -/
def dummyEntry : CompareEntry :=
  { name := "", score := 0, typical_price := "", predicted_wears := 0 }

/-- `compare_brands`, the handler of `GET /compare`. -/
def compare_brands (brands : List String) (category : String) : Except String CompareResult :=
  if brands.length < 2 then .error "Need at least 2 brands to compare"
  else
    let results := brands.map (compareEntryFor category)
    let sorted := results.insertionSort (fun a b => b.score ≤ a.score)
    let best := sorted.headD dummyEntry
    let worst := sorted.getLastD dummyEntry
    let improvement := pyInt (((best.predicted_wears : ℚ) / (worst.predicted_wears : ℚ) - 1) * 100)
    .ok {
      category := category
      brands := sorted
      recommendation := best.name ++ " offers best value with " ++ toString improvement ++
        "% more predicted wears" }


deriving instance DecidableEq for Except

/-- `quality_simplified_spec` — modelled from the spec: the simplified form
`brand_score * 0.7 + material_score * 0.3` that the spec asserts equals the
code's three-term aggregation. -/
def quality_simplified_spec (brand_score material_score : ℚ) : ℚ :=
  brand_score * 0.7 + material_score * 0.3

/-- The worked request of the spec's end-to-end example. -/
def exampleRequest : AnalyzeRequest :=
  { brand := some "Patagonia", item_type := some "jacket", price := 120, currency := "USD",
    material_composition := some "100% cotton", url := none }

/-- The full response `analyze_item` computes on `exampleRequest`. -/
def exampleResponse : AnalyzeResponse :=
  { quality_score := 8.7, predicted_wears := 208, predicted_lifespan_months := 62,
    cost_per_wear := 0.58,
    verdict := "Excellent quality. Above average for this category. Good value per wear.",
    factors_brand_score := 9.0, factors_material_score := 8.0,
    brand_average := some 8.2, category_average := some 5.8,
    better_alternatives := [], waitlist_url := "https://cleanseam.ai/join" }

/-- The table record stored under key `"zara"`. -/
def zaraRecord : BrandData :=
  { name := "Zara", tier := "fast_fashion", overall_score := 3.5,
    description := "Fast fashion with trendy designs, variable quality",
    category_scores := [("jeans", 3.2), ("t-shirt", 2.8), ("dress", 3.5), ("jacket", 4.0)],
    avg_lifespan_months := 12 }

/-- The alternatives entry produced for Patagonia in the jeans category. -/
def altPatagoniaJeans : AltEntry :=
  { brand := "Patagonia", score := 8.2, typical_price_range := "$80-250" }

/-- A request whose `brand` field is present but empty. -/
def emptyBrandRequest : AnalyzeRequest :=
  { brand := some "", item_type := some "t-shirt", price := 10, currency := "USD",
    material_composition := none, url := none }

/-- A request with both identifying fields present and nonempty. -/
def validRequest : AnalyzeRequest :=
  { brand := some "zara", item_type := some "jeans", price := 10, currency := "USD",
    material_composition := none, url := none }

instance : IsTrans AltEntry (fun a b => b.score ≤ a.score) :=
  ⟨fun _ _ _ hab hbc => le_trans hbc hab⟩

instance : IsTotal AltEntry (fun a b => b.score ≤ a.score) :=
  ⟨fun a b => (le_total b.score a.score).imp id id⟩

instance : IsTrans CompareEntry (fun a b => b.score ≤ a.score) :=
  ⟨fun _ _ _ hab hbc => le_trans hbc hab⟩

instance : IsTotal CompareEntry (fun a b => b.score ≤ a.score) :=
  ⟨fun a b => (le_total b.score a.score).imp id id⟩

/-! ### Helper lemmas -/

lemma floor_eq_of {q : ℚ} {z : ℤ} (h1 : (z : ℚ) ≤ q) (h2 : q < z + 1) : ⌊q⌋ = z :=
  Int.floor_eq_iff.mpr ⟨h1, h2⟩

lemma pyInt_eq_of {q : ℚ} {z : ℤ} (h1 : (z : ℚ) ≤ q) (h2 : q < z + 1) (h3 : 0 ≤ q) :
    pyInt q = z := by
  unfold pyInt
  rw [if_neg (by exact not_lt.mpr h3), floor_eq_of h1 h2]

lemma pyInt_eq_floor {q : ℚ} (h : 0 ≤ q) : pyInt q = ⌊q⌋ := by
  unfold pyInt
  rw [if_neg (by exact not_lt.mpr h)]

lemma round_eq_of {x : ℚ} {z : ℤ} (h1 : (z : ℚ) ≤ x + 1/2) (h2 : x + 1/2 < z + 1) :
    round x = z := by
  rw [round_eq]; exact floor_eq_of h1 h2

lemma roundTo_eq_of {p : ℕ} {q r : ℚ} {z : ℤ} (h1 : (z : ℚ) ≤ q * 10 ^ p + 1/2)
    (h2 : q * 10 ^ p + 1/2 < z + 1) (h3 : (z : ℚ) / 10 ^ p = r) : roundTo p q = r := by
  unfold roundTo
  rw [round_eq_of h1 h2, h3]

/-- `roundTo 1` keeps values inside `[1, 10]` and lands on an integer number
of tenths. -/
lemma roundTo_one_bounds {q : ℚ} (h1 : 1 ≤ q) (h2 : q ≤ 10) :
    1 ≤ roundTo 1 q ∧ roundTo 1 q ≤ 10 ∧ ∃ z : ℤ, roundTo 1 q = (z : ℚ) / 10 := by
  have hlo : (10 : ℤ) ≤ round (q * 10 ^ 1) := by
    rw [round_eq]
    refine Int.le_floor.mpr ?_
    push_cast
    nlinarith
  have hhi : round (q * 10 ^ 1) ≤ 100 := by
    rw [round_eq]
    have : (q * 10 ^ 1 + 1 / 2 : ℚ) ≤ 201 / 2 := by nlinarith
    calc ⌊(q * 10 ^ 1 + 1/2 : ℚ)⌋ ≤ ⌊(201 / 2 : ℚ)⌋ := Int.floor_le_floor this
      _ = 100 := floor_eq_of (by norm_num) (by norm_num)
  unfold roundTo
  refine ⟨?_, ?_, round (q * 10 ^ 1), by norm_num⟩
  · have h : ((10 : ℤ) : ℚ) ≤ (round (q * 10 ^ 1) : ℚ) := by exact_mod_cast hlo
    rw [le_div_iff (by norm_num : (0 : ℚ) < 10 ^ 1)]
    push_cast at h ⊢
    linarith
  · have h : ((round (q * 10 ^ 1) : ℤ) : ℚ) ≤ ((100 : ℤ) : ℚ) := by exact_mod_cast hhi
    rw [div_le_iff (by norm_num : (0 : ℚ) < 10 ^ 1)]
    push_cast at h ⊢
    linarith

lemma mem_of_lookup_eq_some {β : Type} {l : List (String × β)} {k : String} {v : β}
    (h : l.lookup k = some v) : (k, v) ∈ l := by
  induction l with
  | nil => simp [List.lookup] at h
  | cons p t ih =>
    rcases p with ⟨a, b⟩
    rw [List.lookup] at h
    rcases hk : k == a with _ | _
    · rw [hk] at h
      exact List.mem_cons_of_mem _ (ih h)
    · rw [hk] at h
      obtain rfl : b = v := by simpa using h
      obtain rfl : k = a := by simpa using hk
      exact List.mem_cons_self _ _

lemma lookup_eq_none_of_not_mem {β : Type} {l : List (String × β)} {k : String}
    (h : k ∉ l.map Prod.fst) : l.lookup k = none := by
  induction l with
  | nil => rfl
  | cons p t ih =>
    rcases p with ⟨a, b⟩
    simp only [List.map_cons, List.mem_cons, not_or] at h
    rw [List.lookup]
    have : (k == a) = false := by simpa using h.1
    rw [this]
    exact ih h.2

/-- The first component of `get_brand_score`, written out by cases on the
table lookup. -/
lemma get_brand_score_fst (brand category : String) :
    (get_brand_score brand category).1 =
      (match BRAND_DATA.lookup (strTrim (strLower brand)) with
       | some bd => (bd.category_scores.lookup category).getD bd.overall_score
       | none => 5.0) := by
  unfold get_brand_score
  rcases hl : BRAND_DATA.lookup (strTrim (strLower brand)) with _ | bd <;> simp [hl]

/-- Distinct keys of `BRAND_DATA` carry distinct display names. -/
lemma brand_names_injective :
    ∀ p ∈ BRAND_DATA, ∀ q ∈ BRAND_DATA, p.2.name = q.2.name → p.1 = q.1 := by decide

/-- Every per-brand category key also appears in `CATEGORY_AVERAGES`. -/
lemma brand_category_keys_sub :
    ∀ p ∈ BRAND_DATA, ∀ k ∈ p.2.category_scores.map Prod.fst,
      k ∈ CATEGORY_AVERAGES.map Prod.fst := by decide

/-- Every `avg_wears` value in the category table is at least 40. -/
lemma table_wears_ge_forty : ∀ p ∈ CATEGORY_AVERAGES, 40 ≤ p.2.avg_wears := by decide

/-- With a quality score of at least 1, the wears prediction is at least 8
for every category (table values are all at least 40, default 60). -/
lemma predicted_wears_ge_eight {q : ℚ} (hq : 1 ≤ q) (category : String) :
    8 ≤ calculate_predicted_wears q category := by
  have hq0 : (0 : ℚ) ≤ q := le_trans (by norm_num) hq
  have main : ∀ n : ℕ, 40 ≤ n → 8 ≤ pyInt ((n : ℚ) * (q / 5.0)) := by
    intro n hn
    have h5 : (5.0 : ℚ) = 5 := by norm_num
    have hnn : (0 : ℚ) ≤ (n : ℚ) * (q / 5.0) := by
      apply mul_nonneg (Nat.cast_nonneg n)
      rw [h5]
      positivity
    rw [pyInt_eq_floor hnn]
    refine Int.le_floor.mpr ?_
    have hn' : (40 : ℚ) ≤ (n : ℚ) := by exact_mod_cast hn
    have key : (40 : ℚ) ≤ (n : ℚ) * q := by nlinarith
    rw [h5]
    have hsplit : (n : ℚ) * (q / 5) = (n : ℚ) * q / 5 := by ring
    rw [hsplit]
    push_cast
    linarith
  unfold calculate_predicted_wears
  rcases hl : CATEGORY_AVERAGES.lookup category with _ | cd
  · exact main 60 (by norm_num)
  · have := table_wears_ge_forty _ (mem_of_lookup_eq_some hl)
    exact main cd.avg_wears this

/-- Shape of a successful `analyze_item` response: the published quality
score is the rounded clamp of the weighted aggregation of the published
factors, and the wears prediction is computed from it. -/
lemma analyze_ok_spec {req : AnalyzeRequest} {resp : AnalyzeResponse}
    (h : analyze_item req = .ok resp) :
    resp.quality_score = roundTo 1 (min 10.0 (max 1.0
      (quality_weighted resp.factors_brand_score resp.factors_material_score))) ∧
    resp.predicted_wears =
      calculate_predicted_wears resp.quality_score (strLower (pyOrStr req.item_type "t-shirt")) := by
  unfold analyze_item at h
  split at h
  · simp at h
  split at h
  · simp at h
  rw [Except.ok.injEq] at h
  subst h
  exact ⟨rfl, rfl⟩

/-- The clamp fed to the rounding step lies in `[1, 10]`. -/
lemma clamp_bounds (x : ℚ) :
    1 ≤ min 10.0 (max 1.0 x) ∧ min 10.0 (max 1.0 x) ≤ 10 := by
  constructor
  · exact le_min (by norm_num) (le_trans (by norm_num) (le_max_left 1.0 x))
  · exact le_trans (min_le_left _ _) (by norm_num)

/-- Evaluation of the spec's worked end-to-end example. -/
lemma analyze_example_eq : analyze_item exampleRequest = .ok exampleResponse := by
  with_unfolding_all decide

/-! ### Claim theorems -/

/-- Claim C1: the material scorer returns 5.0 on absent or empty input;
otherwise it adds exactly one bonus from the first matching branch of the
chain (+3.0 for a "100% cotton"/"100% wool"/"100% linen" phrase, else +1.5
for "cotton", else +2.0 for "wool" or "linen"), independently subtracts
every matching penalty (polyester 1.5, acrylic 2.0, viscose/rayon 0.5), and
clamps to `[1, 10]`; in particular every returned score lies in `[1, 10]`. -/
theorem c1_material_score :
    calculate_material_score none = 5 ∧
    calculate_material_score (some "") = 5 ∧
    (∀ c : Option String, 1 ≤ calculate_material_score c ∧ calculate_material_score c ≤ 10) ∧
    (∀ s : String, s ≠ "" →
      calculate_material_score (some s) =
        max 1 (min 10 ((5 : ℚ)
          + (if strContains (strLower s) "100% cotton" || strContains (strLower s) "100% wool" ||
                strContains (strLower s) "100% linen" then 3
             else if strContains (strLower s) "cotton" then 1.5
             else if strContains (strLower s) "wool" || strContains (strLower s) "linen" then 2
             else 0)
          - (if strContains (strLower s) "polyester" then 1.5 else 0)
          - (if strContains (strLower s) "acrylic" then 2 else 0)
          - (if strContains (strLower s) "viscose" || strContains (strLower s) "rayon" then 0.5
             else 0)))) := by
  have hb : ∀ x : ℚ, 1 ≤ max 1 (min 10 x) ∧ max 1 (min 10 x) ≤ 10 := by
    intro x
    exact ⟨le_max_left _ _, max_le (by norm_num) (min_le_left _ _)⟩
  have hmain : ∀ s : String, s ≠ "" →
      calculate_material_score (some s) =
        max 1 (min 10 ((5 : ℚ)
          + (if strContains (strLower s) "100% cotton" || strContains (strLower s) "100% wool" ||
                strContains (strLower s) "100% linen" then 3
             else if strContains (strLower s) "cotton" then 1.5
             else if strContains (strLower s) "wool" || strContains (strLower s) "linen" then 2
             else 0)
          - (if strContains (strLower s) "polyester" then 1.5 else 0)
          - (if strContains (strLower s) "acrylic" then 2 else 0)
          - (if strContains (strLower s) "viscose" || strContains (strLower s) "rayon" then 0.5
             else 0))) := by
    intro s hs
    simp only [calculate_material_score, if_neg hs]
    split_ifs <;> norm_num [min_def, max_def]
  refine ⟨by norm_num [calculate_material_score], by norm_num [calculate_material_score], ?_, hmain⟩
  intro c
  match c with
  | none => norm_num [calculate_material_score]
  | some s =>
    by_cases hs : s = ""
    · subst hs
      norm_num [calculate_material_score]
    · rw [hmain s hs]
      exact hb _

/-- Witness for C1 at the concrete composition `"polyester"`. -/
theorem c1_material_score_witness :
    calculate_material_score (some "polyester") =
      max 1 (min 10 ((5 : ℚ)
        + (if strContains (strLower "polyester") "100% cotton" ||
              strContains (strLower "polyester") "100% wool" ||
              strContains (strLower "polyester") "100% linen" then 3
           else if strContains (strLower "polyester") "cotton" then 1.5
           else if strContains (strLower "polyester") "wool" ||
              strContains (strLower "polyester") "linen" then 2
           else 0)
        - (if strContains (strLower "polyester") "polyester" then 1.5 else 0)
        - (if strContains (strLower "polyester") "acrylic" then 2 else 0)
        - (if strContains (strLower "polyester") "viscose" ||
              strContains (strLower "polyester") "rayon" then 0.5
           else 0))) :=
  c1_material_score.2.2.2 "polyester" (by decide)

/-- Claim C2: the aggregation `b*0.5 + m*0.3 + b*0.2` equals the simplified
form `b*0.7 + m*0.3` as functions, and the published quality score is that
value clamped to `[1, 10]` and rounded to one decimal, hence lies in
`[1, 10]` with at most one decimal digit. -/
theorem c2_quality_aggregation :
    (∀ b m : ℚ, quality_weighted b m = quality_simplified_spec b m) ∧
    (∀ (req : AnalyzeRequest) (resp : AnalyzeResponse), analyze_item req = .ok resp →
      resp.quality_score = roundTo 1 (min 10.0 (max 1.0
        (quality_weighted resp.factors_brand_score resp.factors_material_score))) ∧
      1 ≤ resp.quality_score ∧ resp.quality_score ≤ 10 ∧
      ∃ z : ℤ, resp.quality_score = (z : ℚ) / 10) := by
  constructor
  · intro b m
    unfold quality_weighted quality_simplified_spec
    ring_nf
  · intro req resp h
    obtain ⟨hq, -⟩ := analyze_ok_spec h
    obtain ⟨hc1, hc2⟩ :=
      clamp_bounds (quality_weighted resp.factors_brand_score resp.factors_material_score)
    obtain ⟨b1, b2, b3⟩ := roundTo_one_bounds hc1 hc2
    rw [hq]
    exact ⟨rfl, b1, b2, b3⟩

/-- Witness for C2 on the worked example request. -/
theorem c2_quality_aggregation_witness :
    1 ≤ exampleResponse.quality_score ∧ exampleResponse.quality_score ≤ 10 :=
  ⟨(c2_quality_aggregation.2 exampleRequest exampleResponse analyze_example_eq).2.1,
   (c2_quality_aggregation.2 exampleRequest exampleResponse analyze_example_eq).2.2.1⟩

/-- Claim C3: the spec's end-to-end example: analysing
`{brand: "Patagonia", item_type: "jacket", price: 120,
material_composition: "100% cotton"}` yields brand score 9.0, material
score 8.0, quality score 8.7, 208 predicted wears, 62 months lifespan,
cost per wear 0.58, and a verdict beginning "Excellent quality. Above
average for this category. Good value per wear." -/
theorem c3_analyze_example :
    (analyze_item exampleRequest).toOption.map (fun r => r.factors_brand_score) = some 9.0 ∧
    (analyze_item exampleRequest).toOption.map (fun r => r.factors_material_score) = some 8.0 ∧
    (analyze_item exampleRequest).toOption.map (fun r => r.quality_score) = some 8.7 ∧
    (analyze_item exampleRequest).toOption.map (fun r => r.predicted_wears) = some 208 ∧
    (analyze_item exampleRequest).toOption.map (fun r => r.predicted_lifespan_months) = some 62 ∧
    (analyze_item exampleRequest).toOption.map (fun r => r.cost_per_wear) = some 0.58 ∧
    (analyze_item exampleRequest).toOption.map (fun r =>
      isPrefixL "Excellent quality. Above average for this category. Good value per wear.".data
        r.verdict.data) = some true := by
  with_unfolding_all decide

/-- Claim C4: for every nonnegative quality score, the predictors return
the floor of the category baseline (default 60 wears / 18 months on an
unknown category) scaled by `quality_score / 5.0`. -/
theorem c4_predictor :
    ∀ (q : ℚ) (category : String), 0 ≤ q →
      calculate_predicted_wears q category =
        ⌊(match CATEGORY_AVERAGES.lookup category with
           | some cd => (cd.avg_wears : ℚ)
           | none => 60) * (q / 5.0)⌋ ∧
      calculate_lifespan q category =
        ⌊(match CATEGORY_AVERAGES.lookup category with
           | some cd => (cd.avg_lifespan : ℚ)
           | none => 18) * (q / 5.0)⌋ := by
  intro q category hq
  have hnn : ∀ n : ℕ, (0 : ℚ) ≤ (n : ℚ) * (q / 5.0) := by
    intro n
    apply mul_nonneg (Nat.cast_nonneg n)
    apply div_nonneg hq (by norm_num)
  rcases hl : CATEGORY_AVERAGES.lookup category with _ | cd
  · constructor
    · simp only [calculate_predicted_wears, hl]
      rw [pyInt_eq_floor (hnn 60)]
      norm_num
    · simp only [calculate_lifespan, hl]
      rw [pyInt_eq_floor (hnn 18)]
      norm_num
  · constructor
    · simp only [calculate_predicted_wears, hl]
      rw [pyInt_eq_floor (hnn _)]
    · simp only [calculate_lifespan, hl]
      rw [pyInt_eq_floor (hnn _)]

/-- Witness for C4 at quality 3.3 and the unknown category `"hat"`. -/
theorem c4_predictor_witness :
    calculate_predicted_wears 3.3 "hat" =
      ⌊(match CATEGORY_AVERAGES.lookup "hat" with
         | some cd => (cd.avg_wears : ℚ)
         | none => 60) * ((3.3 : ℚ) / 5.0)⌋ ∧
    calculate_lifespan 3.3 "hat" =
      ⌊(match CATEGORY_AVERAGES.lookup "hat" with
         | some cd => (cd.avg_lifespan : ℚ)
         | none => 18) * ((3.3 : ℚ) / 5.0)⌋ :=
  c4_predictor 3.3 "hat" (by norm_num)

/-- Claim C7: with the current tables (all category baselines at least 40
wears, default 60) and a quality score clamped to at least 1, the predicted
wear count is always at least 8 — in particular never zero — so the
`price / predicted_wears` division in the analyze pipeline cannot divide by
zero. -/
theorem c7_predicted_wears_positive :
    (∀ (q : ℚ) (category : String), 1 ≤ q → 8 ≤ calculate_predicted_wears q category) ∧
    (∀ (req : AnalyzeRequest) (resp : AnalyzeResponse), analyze_item req = .ok resp →
      8 ≤ resp.predicted_wears ∧ resp.predicted_wears ≠ 0) := by
  constructor
  · intro q category hq
    exact predicted_wears_ge_eight hq category
  · intro req resp h
    obtain ⟨hq, hw⟩ := analyze_ok_spec h
    have h1 : 1 ≤ resp.quality_score := by
      rw [hq]
      obtain ⟨hc1, hc2⟩ :=
        clamp_bounds (quality_weighted resp.factors_brand_score resp.factors_material_score)
      exact (roundTo_one_bounds hc1 hc2).1
    rw [hw]
    refine ⟨predicted_wears_ge_eight h1 _, ?_⟩
    have := predicted_wears_ge_eight h1 (strLower (pyOrStr req.item_type "t-shirt"))
    omega

/-- Witness for C7 at quality 1 / category `"jeans"` and on the worked
example request. -/
theorem c7_predicted_wears_positive_witness :
    8 ≤ calculate_predicted_wears 1 "jeans" ∧ 8 ≤ exampleResponse.predicted_wears :=
  ⟨c7_predicted_wears_positive.1 1 "jeans" (by norm_num),
   (c7_predicted_wears_positive.2 exampleRequest exampleResponse analyze_example_eq).1⟩

/-- Claim C8: the brand scorer lowercases and strips the name; an absent
brand yields `(5.0, no record)`; a present brand yields its per-category
score, falling back to its overall score; concretely
`get_brand_score "zara" "jeans" = 3.2`,
`get_brand_score "zara" "unknownCategory" = 3.5`, and
`get_brand_score "notabrand" "jeans" = (5.0, no record)`. -/
theorem c8_brand_score :
    (∀ b c : String, BRAND_DATA.lookup (strTrim (strLower b)) = none →
      get_brand_score b c = (5.0, none)) ∧
    (∀ (b c : String) (bd : BrandData), BRAND_DATA.lookup (strTrim (strLower b)) = some bd →
      get_brand_score b c = ((bd.category_scores.lookup c).getD bd.overall_score, some bd)) ∧
    (get_brand_score "zara" "jeans").1 = 3.2 ∧
    (get_brand_score "zara" "unknownCategory").1 = 3.5 ∧
    get_brand_score "notabrand" "jeans" = (5.0, none) := by
  refine ⟨?_, ?_, rfl, rfl, rfl⟩
  · intro b c h
    simp only [get_brand_score, h]
  · intro b c bd h
    simp only [get_brand_score, h]

/-- Witness for C8: an absent brand and the `"zara"` record. -/
theorem c8_brand_score_witness :
    get_brand_score "notabrand" "jeans" = (5.0, none) ∧
    get_brand_score "zara" "jeans" =
      ((zaraRecord.category_scores.lookup "jeans").getD zaraRecord.overall_score,
        some zaraRecord) :=
  ⟨c8_brand_score.1 "notabrand" "jeans" rfl,
   c8_brand_score.2.1 "zara" "jeans" zaraRecord rfl⟩

/-- Claim C9 (amended): `POST /analyze` returns a client error exactly when
brand and url are both absent-or-empty, or item_type and url are both
absent-or-empty (Python truthiness); otherwise it proceeds to scoring and
returns a result. -/
theorem c9_analyze_validation :
    ∀ req : AnalyzeRequest,
      ((∃ msg, analyze_item req = .error msg) ↔
        ((falsyOpt req.brand = true ∧ falsyOpt req.url = true) ∨
         (falsyOpt req.item_type = true ∧ falsyOpt req.url = true))) ∧
      (((falsyOpt req.brand = false ∨ falsyOpt req.url = false) ∧
        (falsyOpt req.item_type = false ∨ falsyOpt req.url = false)) →
        ∃ resp, analyze_item req = .ok resp) := by
  intro req
  unfold analyze_item
  cases hb : falsyOpt req.brand <;> cases hu : falsyOpt req.url <;>
    cases hi : falsyOpt req.item_type <;> simp

/-- Counterexample for C9 as stated: a request whose `brand` field is
present (the empty string) with no `url` is rejected although the claim
says it should proceed to scoring. -/
theorem c9_counterexample :
    emptyBrandRequest.brand.isSome = true ∧ emptyBrandRequest.item_type.isSome = true ∧
    analyze_item emptyBrandRequest = .error "Brand or URL is required" := by
  refine ⟨rfl, rfl, ?_⟩
  with_unfolding_all decide

/-- Witness for C9: a request with both fields present and nonempty gets a
computed result. -/
theorem c9_analyze_validation_witness :
    (analyze_item validRequest).toOption.isSome = true := by
  obtain ⟨resp, hr⟩ := (c9_analyze_validation validRequest).2 ⟨Or.inl rfl, Or.inl rfl⟩
  rw [hr]
  rfl

/-- Claim C5 (amended): the alternatives list never contains an entry for
the queried brand key, has at most 3 entries, contains only brands whose
category score (with overall-score fallback) exceeds the current score
plus 0.5, and is sorted in non-increasing (not necessarily strictly
decreasing) order of score. -/
theorem c5_alternatives :
    ∀ (brand category : String) (price current_score : ℚ),
      (find_alternatives brand category price current_score).length ≤ 3 ∧
      List.Pairwise (fun a b : AltEntry => b.score ≤ a.score)
        (find_alternatives brand category price current_score) ∧
      (∀ e ∈ find_alternatives brand category price current_score,
        current_score + 0.5 < e.score ∧
        ∃ p ∈ BRAND_DATA, p.1 ≠ strLower brand ∧ e.brand = p.2.name ∧
          e.score = (p.2.category_scores.lookup category).getD p.2.overall_score) ∧
      (∀ bd : BrandData, BRAND_DATA.lookup (strLower brand) = some bd →
        ∀ e ∈ find_alternatives brand category price current_score, e.brand ≠ bd.name) := by
  intro brand category price current_score
  have hmem : ∀ e ∈ find_alternatives brand category price current_score,
      current_score + 0.5 < e.score ∧
      ∃ p ∈ BRAND_DATA, p.1 ≠ strLower brand ∧ e.brand = p.2.name ∧
        e.score = (p.2.category_scores.lookup category).getD p.2.overall_score := by
    intro e he
    unfold find_alternatives at he
    have he1 := List.mem_of_mem_take he
    have he2 := (List.perm_insertionSort _ _).mem_iff.mp he1
    rw [List.mem_filterMap] at he2
    obtain ⟨p, hp, hfp⟩ := he2
    dsimp only at hfp
    split_ifs at hfp with h1 h2
    · injection hfp with hfp
      subst hfp
      exact ⟨h2, p, hp, h1, rfl, rfl⟩
  refine ⟨?_, ?_, hmem, ?_⟩
  · unfold find_alternatives
    rw [List.length_take]
    exact min_le_left _ _
  · unfold find_alternatives
    exact List.Pairwise.sublist (List.take_sublist 3 _) (List.sorted_insertionSort _ _)
  · intro bd hbd e he
    obtain ⟨-, p, hp, h1, hname, -⟩ := hmem e he
    intro hcontra
    have hmem2 : (strLower brand, bd) ∈ BRAND_DATA := mem_of_lookup_eq_some hbd
    exact h1 (brand_names_injective p hp (strLower brand, bd) hmem2 (hname.symm.trans hcontra))

/-- Counterexample for C5 as stated: in the dress category with current
score 1, the returned list has scores `[8.2, 6.5, 6.5]` — sorted
non-increasingly but not strictly descending. -/
theorem c5_counterexample :
    (find_alternatives "mybrand" "dress" 50 1).map (fun e => e.score) = [8.2, 6.5, 6.5] ∧
    ¬ List.Pairwise (fun a b : AltEntry => a.score > b.score)
        (find_alternatives "mybrand" "dress" 50 1) := by
  constructor
  · with_unfolding_all decide
  · with_unfolding_all decide

/-- Witness for C5: querying `"zara"` on jeans with current score 1, the
Patagonia entry beats the threshold and is not the queried brand. -/
theorem c5_alternatives_witness :
    (1 : ℚ) + 0.5 < altPatagoniaJeans.score ∧ altPatagoniaJeans.brand ≠ zaraRecord.name :=
  ⟨((c5_alternatives "zara" "jeans" 10 1).2.2.1 altPatagoniaJeans
      (by with_unfolding_all decide)).1,
   (c5_alternatives "zara" "jeans" 10 1).2.2.2 zaraRecord (by with_unfolding_all decide)
     altPatagoniaJeans (by with_unfolding_all decide)⟩

/-- Claim C6 (amended): `GET /compare` rejects fewer than 2 brands with a
client error; with at least 2 it scores each brand (per-category score with
overall fallback, 5.0 for an unknown brand), sorts descending by score, and
emits the sentence naming the best brand and an improvement percentage N,
where N is the ratio improvement truncated toward zero by Python `int` (not
rounded to nearest). -/
theorem c6_compare :
    ∀ (brands : List String) (category : String),
      (brands.length < 2 →
        compare_brands brands category = .error "Need at least 2 brands to compare") ∧
      (2 ≤ brands.length →
        ∃ r : CompareResult, compare_brands brands category = .ok r ∧
          r.brands.length = brands.length ∧
          List.Pairwise (fun a b : CompareEntry => b.score ≤ a.score) r.brands ∧
          (∀ e ∈ r.brands, ∃ b ∈ brands,
            e.score =
              (match BRAND_DATA.lookup (strTrim (strLower b)) with
               | some bd => (bd.category_scores.lookup category).getD bd.overall_score
               | none => 5.0) ∧
            e.predicted_wears = calculate_predicted_wears e.score category) ∧
          r.recommendation =
            (r.brands.headD dummyEntry).name ++ " offers best value with " ++
              toString (pyInt ((((r.brands.headD dummyEntry).predicted_wears : ℚ) /
                ((r.brands.getLastD dummyEntry).predicted_wears : ℚ) - 1) * 100)) ++
              "% more predicted wears") := by
  intro brands category
  constructor
  · intro h
    unfold compare_brands
    rw [if_pos h]
  · intro h
    have hnot : ¬ brands.length < 2 := not_lt.mpr h
    simp only [compare_brands]
    rw [if_neg hnot]
    refine ⟨_, rfl, ?_, ?_, ?_, rfl⟩
    · dsimp only
      rw [(List.perm_insertionSort _ _).length_eq, List.length_map]
    · dsimp only
      exact List.sorted_insertionSort _ _
    · dsimp only
      intro e he
      have hmm := (List.perm_insertionSort _ _).mem_iff.mp he
      rw [List.mem_map] at hmm
      obtain ⟨b, hb, hback⟩ := hmm
      refine ⟨b, hb, ?_, ?_⟩
      · rw [← hback]
        exact get_brand_score_fst b category
      · rw [← hback]
        rfl

/-- Counterexample for C6 as stated: comparing Levi's and Gap on jeans,
best/worst predicted wears are 150/90, the emitted percentage is 66
(truncated), while the claim's `round` formula gives 67. -/
theorem c6_counterexample :
    (compare_brands ["levis", "gap"] "jeans").toOption.map
      (fun r => ((r.brands.headD dummyEntry).predicted_wears,
        (r.brands.getLastD dummyEntry).predicted_wears)) = some (150, 90) ∧
    (compare_brands ["levis", "gap"] "jeans").toOption.map (fun r => r.recommendation) =
      some "Levi\x27s offers best value with 66% more predicted wears" ∧
    round ((((150 : ℚ) / 90) - 1) * 100) = 67 := by
  refine ⟨?_, ?_, ?_⟩ <;> with_unfolding_all decide

/-- Witness for C6: a one-brand request errors; a two-brand request
computes a result. -/
theorem c6_compare_witness :
    compare_brands ["zara"] "jeans" = .error "Need at least 2 brands to compare" ∧
    (compare_brands ["levis", "gap"] "jeans").toOption.isSome = true := by
  constructor
  · exact (c6_compare ["zara"] "jeans").1 (by norm_num)
  · obtain ⟨r, hr, -⟩ := (c6_compare ["levis", "gap"] "jeans").2 (by norm_num)
    rw [hr]
    rfl

/-- Claim C10: `GET /compare` matches the category case-sensitively (no
lowercasing, unlike `/analyze`), so for a category string that differs from
a table key only in letter case every compared brand falls back to its
overall score and the wear predictor uses the default 60-wear baseline. -/
theorem c10_compare_category_case :
    ∀ category : String,
      strLower category ∈ CATEGORY_AVERAGES.map Prod.fst →
      category ∉ CATEGORY_AVERAGES.map Prod.fst →
      (∀ q : ℚ, calculate_predicted_wears q category = pyInt (60 * (q / 5.0))) ∧
      (∀ brand : String, (get_brand_score brand category).1 =
        (match BRAND_DATA.lookup (strTrim (strLower brand)) with
         | some bd => bd.overall_score
         | none => 5.0)) ∧
      (∀ brands : List String, 2 ≤ brands.length →
        ∃ r : CompareResult, compare_brands brands category = .ok r ∧
          ∀ e ∈ r.brands, e.predicted_wears = pyInt (60 * (e.score / 5.0))) := by
  intro category hlow hnot
  have hlookup : CATEGORY_AVERAGES.lookup category = none := lookup_eq_none_of_not_mem hnot
  have hbrandcat : ∀ p ∈ BRAND_DATA, p.2.category_scores.lookup category = none := by
    intro p hp
    apply lookup_eq_none_of_not_mem
    intro hmm
    exact hnot (brand_category_keys_sub p hp category hmm)
  have hwears : ∀ q : ℚ, calculate_predicted_wears q category = pyInt (60 * (q / 5.0)) := by
    intro q
    simp only [calculate_predicted_wears, hlookup]
    norm_num
  have hbrand : ∀ brand : String, (get_brand_score brand category).1 =
      (match BRAND_DATA.lookup (strTrim (strLower brand)) with
       | some bd => bd.overall_score
       | none => 5.0) := by
    intro brand
    rw [get_brand_score_fst]
    cases hb : BRAND_DATA.lookup (strTrim (strLower brand)) with
    | none => rfl
    | some bd =>
      have hnone : bd.category_scores.lookup category = none :=
        hbrandcat _ (mem_of_lookup_eq_some hb)
      dsimp only
      rw [hnone]
      rfl
  refine ⟨hwears, hbrand, ?_⟩
  intro brands h2
  have hnot2 : ¬ brands.length < 2 := not_lt.mpr h2
  simp only [compare_brands]
  rw [if_neg hnot2]
  refine ⟨_, rfl, ?_⟩
  dsimp only
  intro e he
  have hmm := (List.perm_insertionSort _ _).mem_iff.mp he
  rw [List.mem_map] at hmm
  obtain ⟨b, hb, hback⟩ := hmm
  rw [← hback]
  change calculate_predicted_wears (get_brand_score b category).1 category =
    pyInt (60 * ((get_brand_score b category).1 / 5.0))
  exact hwears _

/-- Witness for C10 at the case-variant category `"Jeans"`. -/
theorem c10_compare_category_case_witness :
    calculate_predicted_wears 5 "Jeans" = pyInt (60 * ((5 : ℚ) / 5.0)) ∧
    (get_brand_score "zara" "Jeans").1 =
      (match BRAND_DATA.lookup (strTrim (strLower "zara")) with
       | some bd => bd.overall_score
       | none => 5.0) :=
  ⟨(c10_compare_category_case "Jeans" (by decide) (by decide)).1 5,
   (c10_compare_category_case "Jeans" (by decide) (by decide)).2.1 "zara"⟩
